import Mathlib

/-!
Shallow embedding of the yeet-yoink storage backbone.

The definitions below are translated from the Rust sources of the
repository:

- src/src/wrapped_temporary.rs
  shared temporary file state, writer finalization and drop behavior,
  reader waker registration and the poll_read forwarding logic;
- src/bins/server/src/backbone/file_writer.rs
  the digesting file writer (byte counter, MD5 and SHA-256 streams,
  write summary construction);
- src/bins/server/src/backbone/file_writer_guard.rs
  the writer guard (overrun check, finalize checks, one-shot signal
  discipline, drop behavior);
- src/bins/server/src/backbone/file_record.rs
  the record lifecycle task (await writer outcome, publish summary,
  ready-for-distribution, lease, removal);
- src/crates/backbone/src/backbone.rs
  admission (new_file) and the backbone command loop;
- src/bins/server/src/handlers/yeet.rs
  the upload handler's per-chunk retry loop.

Asynchronous I/O outcomes (how many bytes the OS reports written, whether
a sync succeeds, when a file poll completes) are passed as explicit
arguments; machine integers are modeled as Nat (no counter in the code can
overflow at the modeled granularity); bytes are Nat values; one-shot
channel sends are modeled as delivered (the receiving lifecycle task holds
the receiver for as long as a guard can signal).
-/

/-! Part A: shared temporary file (src/src/wrapped_temporary.rs). -/

/-- State of the shared temporary file, mirroring enum State:
Pending carries the number of bytes written so far, Completed the final
size, Failed no payload. -/
inductive FileState where
  | pending (size : Nat)
  | completed (size : Nat)
  | failed
deriving DecidableEq, Repr

/-- Error from completing a write, mirroring CompleteWritingError (the Io
variant is an I/O outcome and is represented by the same constructor
carrier here since only its presence matters to control flow). -/
inductive CompleteWritingError where
  | fileWritingFailed
deriving DecidableEq, Repr

/-- Error kinds used by the writer paths, mirroring std::io::ErrorKind
values that the code constructs or matches on. -/
inductive IoErrorKind where
  | brokenPipe
  | unexpectedEof
  | other
deriving DecidableEq, Repr

/-- SharedTemporaryFileWriter::finalize_state: Pending becomes Completed
with the accumulated count, Completed stays, Failed is an error. -/
def finalize_state (s : FileState) : FileState × Except CompleteWritingError Unit :=
  match s with
  | .pending size => (.completed size, .ok ())
  | .completed size => (.completed size, .ok ())
  | .failed => (.failed, .error .fileWritingFailed)

/-- PinnedDrop for SharedTemporaryFileWriter: the drop handler runs
finalize_state and discards its result. -/
def writer_pinned_drop (s : FileState) : FileState :=
  (finalize_state s).1

/-- SharedTemporaryFileWriter::update_state: a successful underlying write
of the given byte count advances a Pending count; nonzero writes after
Completed and any write after Failed are errors. Returns the count held
before the update, as the code does. -/
def update_state_file (s : FileState) (written : Nat) : FileState × Except IoErrorKind Nat :=
  match s with
  | .pending count => (.pending (count + written), .ok count)
  | .completed count =>
      if written ≠ 0 then (.completed count, .error .brokenPipe)
      else (.completed count, .ok count)
  | .failed => (.failed, .error .other)

/-- Poll outcome of an asynchronous operation. -/
inductive Poll (α : Type) where
  | ready (value : α)
  | pending
deriving DecidableEq, Repr

/-- Result of one underlying file read: the bytes placed into the buffer
(the empty list at end of file) or an I/O error. -/
abbrev ReadOutcome := Except IoErrorKind (List Nat)

/-- Sentinel shared by the writer and readers: the file state and the
wake-token set, keyed by reader id (Mutex and Waker values are external;
only membership of an id matters). -/
structure Sentinel where
  state : FileState
  wakers : List Nat
deriving DecidableEq, Repr

/-- Sentinel::register_reader_waker: insert the reader id, replacing the
stored waker when the id is already present (set semantics). -/
def register_reader_waker (wakers : List Nat) (id : Nat) : List Nat :=
  if id ∈ wakers then wakers else id :: wakers

/-- Bytes a completed read of a regular file yields at the given offset
with the given buffer capacity: the empty list once the offset has
reached the bytes on disk. -/
def file_read_at (disk : List Nat) (offset cap : Nat) : List Nat :=
  (disk.drop offset).take cap

/-- AsyncRead::poll_read for SharedTemporaryFileReader: forward the
underlying file poll; on ready remove this reader's waker and return the
result unchanged, on pending register the waker. The sentinel state is
available to the method but is not consulted. -/
def reader_poll_read (s : Sentinel) (id : Nat) (filePoll : Poll ReadOutcome) :
    Sentinel × Poll ReadOutcome :=
  match filePoll with
  | .ready result => ({ s with wakers := s.wakers.erase id }, .ready result)
  | .pending => ({ s with wakers := register_reader_waker s.wakers id }, .pending)

/-! Part B: the digesting file writer
(src/bins/server/src/backbone/file_writer.rs). -/

/-- Digesting writer over the shared temporary file writer. The incremental
MD5 and SHA-256 hashers of the external md5 and sha2 crates are determined
by the byte stream consumed so far, so the model stores those streams; the
backing file content handed to the OS is the disk field. -/
structure FileWriter where
  disk : List Nat
  md5_input : List Nat
  sha256_input : List Nat
  file_name : Option String
  file_size : Nat
deriving DecidableEq, Repr

/-- FileWriter::new: fresh hashers, zero byte counter, empty backing file
(the id and the shared writer handle carry no model state). -/
def FileWriter.new (file_name : Option String) : FileWriter :=
  { disk := [], md5_input := [], sha256_input := [], file_name, file_size := 0 }

/-- FileWriter::update_state: add the full chunk length to the byte counter
and feed the full chunk to both hashers. -/
def FileWriter.update_state (w : FileWriter) (buf : List Nat) : FileWriter :=
  { w with
      file_size := w.file_size + buf.length
      md5_input := w.md5_input ++ buf
      sha256_input := w.sha256_input ++ buf }

/-- FileWriter::write: update_state runs on the full chunk first, then the
underlying write is awaited; res is the count of bytes the OS reports
written (the first res bytes of the chunk reach the backing file), or an
I/O error, which leaves the backing file unchanged in the model but keeps
the already-performed state update. -/
def FileWriter.write (w : FileWriter) (chunk : List Nat) (res : Except IoErrorKind Nat) :
    FileWriter × Except IoErrorKind Nat :=
  let w2 := w.update_state chunk
  match res with
  | .ok n => ({ w2 with disk := w2.disk ++ chunk.take n }, .ok n)
  | .error e => (w2, .error e)

/-- Digest value of the external MD5 hasher as a function of the consumed
byte stream (the compression itself lives in the md5 crate, outside this
repository; equality of digests is modeled as equality of consumed
streams). -/
def md5_digest (input : List Nat) : List Nat := input

/-- Digest value of the external SHA-256 hasher as a function of the
consumed byte stream. -/
def sha256_digest (input : List Nat) : List Nat := input

/-- Pair of file hashes, mirroring FileHashes. -/
structure FileHashes where
  sha256 : List Nat
  md5 : List Nat
deriving DecidableEq, Repr

/-- Write summary, mirroring WriteSummary: expiration instant, hashes,
optional file name and final size. Instants are Nat ticks. -/
structure WriteSummary where
  expires : Nat
  hashes : FileHashes
  file_name : Option String
  file_size_bytes : Nat
deriving DecidableEq, Repr

/-- Completion mode, mirroring CompletionMode. -/
inductive CompletionMode where
  | sync
  | noSync
deriving DecidableEq, Repr

/-- Finalization error, mirroring FinalizationError. InvalidFileLength
carries the two counts in the order the code passes them and
IntegrityCheckFailed the two digests in the order the code passes them. -/
inductive FinalizationError where
  | fileSyncFailed (e : CompleteWritingError)
  | backboneCommunicationFailed
  | invalidFileLength (a b : Nat)
  | integrityCheckFailed (expected got : List Nat)
deriving DecidableEq, Repr

/-- FileWriter::finalize: complete the shared file (completeRes is the
outcome of the sync or no-sync completion), then build the summary with
expires set to the current instant plus the expiration duration, the
finalized digests, the file name and the byte counter. -/
def FileWriter.finalize (w : FileWriter) (mode : CompletionMode) (now expiration : Nat)
    (completeRes : Except CompleteWritingError Unit) :
    Except FinalizationError WriteSummary :=
  match completeRes with
  | .error e => .error (.fileSyncFailed e)
  | .ok _ =>
      .ok { expires := now + expiration
            hashes := { sha256 := sha256_digest w.sha256_input, md5 := md5_digest w.md5_input }
            file_name := w.file_name
            file_size_bytes := w.file_size }

/-! Part C: the writer guard
(src/bins/server/src/backbone/file_writer_guard.rs). -/

/-- Terminal signal over the one-shot channel, mirroring WriteResult. -/
inductive WriteResult where
  | success (summary : WriteSummary)
  | failed
deriving DecidableEq, Repr

/-- The writer guard, mirroring FileWriterGuard: the inner writer is None
once finalize has consumed it; the sender flag records whether the
one-shot sender is still present; file_size is the guard's own byte
counter over the counts the OS reported. -/
structure FileWriterGuard where
  inner : Option FileWriter
  sender : Bool
  expiration : Nat
  file_size : Nat
  expected_size : Option Nat
  expected_content_md5 : Option (List Nat)
deriving DecidableEq, Repr

/-- FileWriterGuard::new. -/
def FileWriterGuard.new (writer : FileWriter) (expiration : Nat)
    (expected_size : Option Nat) (content_md5 : Option (List Nat)) : FileWriterGuard :=
  { inner := some writer
    sender := true
    expiration
    file_size := 0
    expected_size
    expected_content_md5 := content_md5 }

/-- FileWriterGuard::fail_if_not_already_closed: take the sender if it is
still present and send Failed over it; a no-op otherwise. Returns the
guard and the signals sent. -/
def FileWriterGuard.fail_if_not_already_closed (g : FileWriterGuard) :
    FileWriterGuard × List WriteResult :=
  if g.sender then ({ g with sender := false }, [.failed]) else (g, [])

/-- Drop for FileWriterGuard: run fail_if_not_already_closed. Returns the
signals sent. -/
def FileWriterGuard.dropGuard (g : FileWriterGuard) : List WriteResult :=
  g.fail_if_not_already_closed.2

/-- FileWriterGuard::write: if the writer is present, perform the digesting
write (res is the underlying outcome), add the reported count to the
guard's byte counter, and if a declared content length is set and the
counter exceeds it, signal failure and return UnexpectedEof; without a
writer, BrokenPipe. Returns the new guard, the signals sent and the call
result. -/
def FileWriterGuard.write (g : FileWriterGuard) (chunk : List Nat)
    (res : Except IoErrorKind Nat) :
    FileWriterGuard × List WriteResult × Except IoErrorKind Nat :=
  match g.inner with
  | none => (g, [], .error .brokenPipe)
  | some w =>
    match FileWriter.write w chunk res with
    | (w2, .error e) => ({ g with inner := some w2 }, [], .error e)
    | (w2, .ok n) =>
      let g2 : FileWriterGuard := { g with inner := some w2, file_size := g.file_size + n }
      match g2.expected_size with
      | some expected =>
          if expected < g2.file_size then
            let p := g2.fail_if_not_already_closed
            (p.1, p.2, .error .unexpectedEof)
          else (g2, [], .ok n)
      | none => (g2, [], .ok n)

/-- FileWriterGuard::try_signal_success: take the sender and send Success
with the summary; without a sender the result is
BackboneCommunicationFailed. The guard is consumed afterwards; with the
sender taken its drop sends nothing. -/
def FileWriterGuard.try_signal_success (g : FileWriterGuard) (summary : WriteSummary) :
    List WriteResult × Except FinalizationError WriteSummary :=
  if g.sender then ([.success summary], .ok summary)
  else ([], .error .backboneCommunicationFailed)

/-- Continuation of FileWriterGuard::finalize after the length check: the
declared MD5, when present, is compared against the computed MD5; on
mismatch the guard signals failure and errors, otherwise it signals
success. -/
def FileWriterGuard.finalize_md5_check (g : FileWriterGuard) (summary : WriteSummary) :
    List WriteResult × Except FinalizationError WriteSummary :=
  match g.expected_content_md5 with
  | some m =>
      if m ≠ summary.hashes.md5 then
        (g.fail_if_not_already_closed.2, .error (.integrityCheckFailed m summary.hashes.md5))
      else g.try_signal_success summary
  | none => g.try_signal_success summary

/-- FileWriterGuard::finalize: take the writer (its absence yields
BackboneCommunicationFailed, after which the guard is dropped), run the
digesting writer's finalize first (its error propagates and the guard is
dropped, firing the drop signal), then check the declared length against
the guard's byte counter, then the declared MD5 against the computed one,
then signal success. Every early error return is followed by the drop of
the consumed guard, which signals Failed when the sender is still
present. -/
def FileWriterGuard.finalize (g : FileWriterGuard) (mode : CompletionMode) (now : Nat)
    (completeRes : Except CompleteWritingError Unit) :
    List WriteResult × Except FinalizationError WriteSummary :=
  match g.inner with
  | none => (g.fail_if_not_already_closed.2, .error .backboneCommunicationFailed)
  | some w =>
    match FileWriter.finalize w mode now g.expiration completeRes with
    | .error e => (g.fail_if_not_already_closed.2, .error e)
    | .ok summary =>
      match g.expected_size with
      | some expected =>
          if g.file_size ≠ expected then
            (g.fail_if_not_already_closed.2,
             .error (.invalidFileLength g.file_size expected))
          else g.finalize_md5_check summary
      | none => g.finalize_md5_check summary

/-! Guard lifetimes as traces: a guard is used through a sequence of write
calls and its lifetime ends either in finalize (which consumes it) or in a
plain drop. -/

/-- One write call against the guard: the chunk and the underlying I/O
outcome. -/
inductive GuardWriteOp where
  | write (chunk : List Nat) (res : Except IoErrorKind Nat)

/-- How the guard's lifetime ends: finalize with the completion mode, the
current instant and the completion outcome, or a drop without finalize. -/
inductive GuardEnding where
  | finalizeEnd (mode : CompletionMode) (now : Nat) (res : Except CompleteWritingError Unit)
  | dropEnd

/-- Run a sequence of write calls against the guard, collecting all
signals sent over the one-shot channel. -/
def runWrites : FileWriterGuard → List GuardWriteOp → FileWriterGuard × List WriteResult
  | g, [] => (g, [])
  | g, GuardWriteOp.write chunk res :: rest =>
    match FileWriterGuard.write g chunk res with
    | (g2, sigs, _) =>
      let p := runWrites g2 rest
      (p.1, sigs ++ p.2)

/-- Signals sent by the lifetime's ending. -/
def runEnding (g : FileWriterGuard) : GuardEnding → List WriteResult
  | .finalizeEnd mode now res => (g.finalize mode now res).1
  | .dropEnd => g.dropGuard

/-- All signals a freshly created guard sends to its record over a whole
lifetime: the write calls followed by the ending. -/
def guardTraceSignals (w0 : FileWriter) (expiration : Nat) (expected_size : Option Nat)
    (content_md5 : Option (List Nat)) (ops : List GuardWriteOp) (ending : GuardEnding) :
    List WriteResult :=
  let g := FileWriterGuard.new w0 expiration expected_size content_md5
  let p := runWrites g ops
  p.2 ++ runEnding p.1 ending

/-! Part D: the record lifecycle task
(src/bins/server/src/backbone/file_record.rs) and the backbone
(src/crates/backbone/src/backbone.rs). -/

/-- Record entry of the backbone registry, mirroring the fields of
FileRecord that outlive construction (the interior file and summary are
owned by the lifecycle task model). Instants are Nat ticks. -/
structure FileRecordM where
  id : Nat
  content_type : Option String
  created : Nat
  expiration_duration : Nat
deriving DecidableEq, Repr

/-- Command to the backbone loop, mirroring BackboneCommand (the reply
channel of ReceiveFile carries no model state). -/
inductive BackboneCommand where
  | removeWriter (id : Nat)
  | readyForDistribution (id : Nat) (summary : WriteSummary)
  | receiveFile (id : Nat)
deriving DecidableEq, Repr

/-- Command forwarded to the backend dispatcher, mirroring
BackendCommand. -/
inductive BackendCommand where
  | distributeFile (id : Nat) (summary : WriteSummary)
  | receiveFile (id : Nat)
deriving DecidableEq, Repr

/-- One step the lifecycle task performs. -/
inductive LifecycleStep where
  | publishSummary (summary : WriteSummary)
  | closeFile
  | sendCommand (c : BackboneCommand)
deriving DecidableEq, Repr

/-- FileRecord::lifetime_handler, as the timed steps it performs given the
outcome of the one-shot writer channel received at instant recv_at: on
Success, publish the summary, send ReadyForDistribution, sleep the lease
and send RemoveWriter at recv_at plus lease; on Failed or a channel error,
release the file and send RemoveWriter. The backbone command channel is
modeled as open. -/
def lifetime_handler (id : Nat) (writer_result : Except Unit WriteResult)
    (recv_at lease : Nat) : List (Nat × LifecycleStep) :=
  match writer_result with
  | .ok (.success s) =>
      [(recv_at, .publishSummary s),
       (recv_at, .sendCommand (.readyForDistribution id s)),
       (recv_at + lease, .sendCommand (.removeWriter id))]
  | .ok .failed =>
      [(recv_at, .closeFile), (recv_at, .sendCommand (.removeWriter id))]
  | .error _ =>
      [(recv_at, .closeFile), (recv_at, .sendCommand (.removeWriter id))]

/-- Check whether a lifecycle step sends ReadyForDistribution. -/
def step_is_ready_for_distribution : Nat × LifecycleStep → Bool
  | (_, .sendCommand (.readyForDistribution _ _)) => true
  | _ => false

/-- Registry lookup by id (HashMap get over unique keys). -/
def lookup_record : List (Nat × FileRecordM) → Nat → Option FileRecordM
  | [], _ => none
  | p :: rest, id => if p.1 = id then some p.2 else lookup_record rest id

/-- Registry removal by id (HashMap remove). -/
def remove_entry : List (Nat × FileRecordM) → Nat → List (Nat × FileRecordM)
  | [], _ => []
  | p :: rest, id =>
      if p.1 = id then remove_entry rest id else p :: remove_entry rest id

/-- Backbone::command_loop body for one command: RemoveWriter removes the
record from the registry and forwards nothing; ReadyForDistribution
forwards DistributeFile to the dispatcher; ReceiveFile forwards
ReceiveFile. Returns the new registry and the forwarded commands. -/
def handle_command (reg : List (Nat × FileRecordM)) :
    BackboneCommand → List (Nat × FileRecordM) × List BackendCommand
  | .removeWriter id => (remove_entry reg id, [])
  | .readyForDistribution id s => (reg, [.distributeFile id s])
  | .receiveFile id => (reg, [.receiveFile id])

/-- Admission error, mirroring NewFileError. -/
inductive NewFileError where
  | failedCreatingFile (id : Nat)
  | failedCreatingWriter (id : Nat)
  | internalErrorMayRetry (id : Nat)
deriving DecidableEq, Repr

/-- Backbone::new_file: create the temporary file and its writer (their
creation outcomes are fileRes and writerRes), then check the registry
entry for the id: an occupied entry drops the fresh writer and file and
yields InternalErrorMayRetry with the registry untouched; a vacant entry
inserts a record created now and returns a guard over a fresh digesting
writer paired with a fresh one-shot sender. -/
def new_file (reg : List (Nat × FileRecordM)) (id now lease : Nat)
    (content_type : Option String) (expected_size : Option Nat)
    (content_md5 : Option (List Nat)) (file_name : Option String)
    (fileRes writerRes : Except Unit Unit) :
    List (Nat × FileRecordM) × Except NewFileError FileWriterGuard :=
  match fileRes with
  | .error _ => (reg, .error (.failedCreatingFile id))
  | .ok _ =>
    match writerRes with
    | .error _ => (reg, .error (.failedCreatingWriter id))
    | .ok _ =>
      match lookup_record reg id with
      | some _ => (reg, .error (.internalErrorMayRetry id))
      | none =>
          ((id, { id, content_type, created := now, expiration_duration := lease }) :: reg,
           .ok (FileWriterGuard.new (FileWriter.new file_name) lease expected_size content_md5))

/-! Part E: the upload handler's per-chunk retry loop
(src/bins/server/src/handlers/yeet.rs, do_yeet). -/

/-- Inner loop of do_yeet over one body buffer: while bytes remain, the
whole remaining buffer is passed to the guard's digesting write and the
buffer is advanced by the count the write reports; the schedule lists the
counts the underlying writes report, one per iteration, and the loop stops
with the data that remains when the schedule is exhausted. Returns the
writer and the handler's bytes_written counter. -/
def yeet_write_chunk_loop : FileWriter → List Nat → List Nat → FileWriter × Nat
  | w, _, [] => (w, 0)
  | w, data, n :: rest =>
    if data.isEmpty then (w, 0)
    else
      match FileWriter.write w data (.ok n) with
      | (w2, _) =>
        let p := yeet_write_chunk_loop w2 (data.drop n) rest
        (p.1, n + p.2)

/-! Helper lemmas on the one-shot signal discipline of the guard. -/

/-- One write call sends no signal and leaves the sender alone, or it
consumes a present sender and sends exactly one Failed. -/
lemma write_signal_cases (g : FileWriterGuard) (chunk : List Nat)
    (res : Except IoErrorKind Nat) :
    ((FileWriterGuard.write g chunk res).2.1 = [] ∧
      (FileWriterGuard.write g chunk res).1.sender = g.sender) ∨
    (g.sender = true ∧ (FileWriterGuard.write g chunk res).2.1 = [WriteResult.failed] ∧
      (FileWriterGuard.write g chunk res).1.sender = false) := by
  obtain ⟨inner, sender, exp, fs, es, md5⟩ := g
  cases inner with
  | none => left; simp [FileWriterGuard.write]
  | some w =>
    cases res with
    | error e => left; simp [FileWriterGuard.write, FileWriter.write]
    | ok n =>
      cases es with
      | none => left; simp [FileWriterGuard.write, FileWriter.write]
      | some expected =>
        by_cases hlt : expected < fs + n
        · cases sender with
          | true =>
            right
            simp [FileWriterGuard.write, FileWriter.write, hlt,
              FileWriterGuard.fail_if_not_already_closed]
          | false =>
            left
            simp [FileWriterGuard.write, FileWriter.write, hlt,
              FileWriterGuard.fail_if_not_already_closed]
        · left; simp [FileWriterGuard.write, FileWriter.write, hlt]

/-- A sequence of write calls sends no signal and leaves the sender alone,
or it consumes a present sender and sends exactly one Failed in total. -/
lemma runWrites_signal_cases (ops : List GuardWriteOp) (g : FileWriterGuard) :
    ((runWrites g ops).2 = [] ∧ (runWrites g ops).1.sender = g.sender) ∨
    (g.sender = true ∧ (runWrites g ops).2 = [WriteResult.failed] ∧
      (runWrites g ops).1.sender = false) := by
  induction ops generalizing g with
  | nil => left; exact ⟨rfl, rfl⟩
  | cons op rest ih =>
    obtain ⟨chunk, res⟩ := op
    have hw := write_signal_cases g chunk res
    rcases hwe : FileWriterGuard.write g chunk res with ⟨g2, sigs, r⟩
    rw [hwe] at hw
    dsimp only at hw
    simp only [runWrites, hwe]
    rcases hw with ⟨h1, h2⟩ | ⟨hg, h1, h2⟩
    · rcases ih g2 with ⟨k1, k2⟩ | ⟨kg, k1, k2⟩
      · left; exact ⟨by simp [h1, k1], k2.trans h2⟩
      · right
        rw [h2] at kg
        exact ⟨kg, by simp [h1, k1], k2⟩
    · rcases ih g2 with ⟨k1, k2⟩ | ⟨kg, k1, k2⟩
      · right; exact ⟨hg, by simp [h1, k1], by rw [k2, h2]⟩
      · rw [h2] at kg; exact absurd kg (by simp)

/-- The drop of the guard sends one Failed exactly when the sender is
still present. -/
lemma dropGuard_signals (g : FileWriterGuard) :
    FileWriterGuard.dropGuard g = if g.sender then [WriteResult.failed] else [] := by
  unfold FileWriterGuard.dropGuard FileWriterGuard.fail_if_not_already_closed
  split <;> simp_all

/-- Finalize sends exactly one signal when the sender is present and none
otherwise, on every one of its paths. -/
lemma finalize_signal_length (g : FileWriterGuard) (mode : CompletionMode) (now : Nat)
    (res : Except CompleteWritingError Unit) :
    ((FileWriterGuard.finalize g mode now res).1).length = if g.sender then 1 else 0 := by
  obtain ⟨inner, sender, exp, fs, es, md5⟩ := g
  cases inner with
  | none =>
    cases sender <;>
      simp [FileWriterGuard.finalize, FileWriterGuard.fail_if_not_already_closed]
  | some w =>
    cases res with
    | error e =>
      cases sender <;>
        simp [FileWriterGuard.finalize, FileWriter.finalize,
          FileWriterGuard.fail_if_not_already_closed]
    | ok u =>
      have hmd5 : ∀ (g2 : FileWriterGuard) (s : WriteSummary),
          ((FileWriterGuard.finalize_md5_check g2 s).1).length =
            if g2.sender then 1 else 0 := by
        intro g2 s
        unfold FileWriterGuard.finalize_md5_check FileWriterGuard.try_signal_success
          FileWriterGuard.fail_if_not_already_closed
        rcases hm : g2.expected_content_md5 with _ | m <;>
          by_cases hs : g2.sender <;>
            simp [hm, hs] <;> split <;> simp
      cases es with
      | none =>
        simp only [FileWriterGuard.finalize, FileWriter.finalize]
        exact hmd5 _ _
      | some expected =>
        by_cases hne : fs ≠ expected
        · cases sender <;>
            simp [FileWriterGuard.finalize, FileWriter.finalize, hne,
              FileWriterGuard.fail_if_not_already_closed]
        · simp only [FileWriterGuard.finalize, FileWriter.finalize]
          rw [if_neg hne]
          exact hmd5 _ _

/-- A Success signal can only come out of finalize, and only together with
the matching Ok result. -/
lemma finalize_success_mem (g : FileWriterGuard) (mode : CompletionMode) (now : Nat)
    (res : Except CompleteWritingError Unit) (s : WriteSummary) :
    WriteResult.success s ∈ (FileWriterGuard.finalize g mode now res).1 →
    (FileWriterGuard.finalize g mode now res).2 = Except.ok s := by
  obtain ⟨inner, sender, exp, fs, es, md5⟩ := g
  cases inner with
  | none =>
    cases sender <;>
      simp [FileWriterGuard.finalize, FileWriterGuard.fail_if_not_already_closed]
  | some w =>
    cases res with
    | error e =>
      cases sender <;>
        simp [FileWriterGuard.finalize, FileWriter.finalize,
          FileWriterGuard.fail_if_not_already_closed]
    | ok u =>
      have hmd5 : ∀ (g2 : FileWriterGuard) (t : WriteSummary),
          WriteResult.success s ∈ (FileWriterGuard.finalize_md5_check g2 t).1 →
          (FileWriterGuard.finalize_md5_check g2 t).2 = Except.ok s := by
        intro g2 t
        unfold FileWriterGuard.finalize_md5_check FileWriterGuard.try_signal_success
          FileWriterGuard.fail_if_not_already_closed
        rcases hm : g2.expected_content_md5 with _ | m <;>
          by_cases hs : g2.sender <;>
            simp [hm, hs] <;>
              first
              | exact fun h => h.symm
              | (split <;> simp <;> exact fun h => h.symm)
      cases es with
      | none =>
        simp only [FileWriterGuard.finalize, FileWriter.finalize]
        exact hmd5 _ _
      | some expected =>
        by_cases hne : fs ≠ expected
        · cases sender <;>
            simp [FileWriterGuard.finalize, FileWriter.finalize, hne,
              FileWriterGuard.fail_if_not_already_closed]
        · simp only [FileWriterGuard.finalize, FileWriter.finalize]
          rw [if_neg hne]
          exact hmd5 _ _

/-- Removing an id from the registry leaves no record under that id. -/
lemma lookup_remove_entry (reg : List (Nat × FileRecordM)) (id : Nat) :
    lookup_record (remove_entry reg id) id = none := by
  induction reg with
  | nil => rfl
  | cons p rest ih =>
    by_cases h : p.1 = id
    · simpa [remove_entry, h] using ih
    · simpa [remove_entry, lookup_record, h] using ih

/-! Theorems for the claims. -/

/-- C1: for every admitted file, the record receives exactly one terminal
signal from its writer guard, on every lifetime of the guard (any sequence
of write calls ended by finalize or by a drop): the signal list has length
one, a lifetime ended by a plain drop delivers exactly the Failed signal,
and a Success signal can only arise from a finalize whose result is the
matching Ok summary. -/
theorem guard_delivers_exactly_one_terminal_signal
    (w0 : FileWriter) (expiration : Nat) (expected_size : Option Nat)
    (content_md5 : Option (List Nat)) (ops : List GuardWriteOp) (ending : GuardEnding) :
    (guardTraceSignals w0 expiration expected_size content_md5 ops ending).length = 1 ∧
    (ending = GuardEnding.dropEnd →
      guardTraceSignals w0 expiration expected_size content_md5 ops ending
        = [WriteResult.failed]) ∧
    (∀ s, WriteResult.success s ∈
        guardTraceSignals w0 expiration expected_size content_md5 ops ending →
      ∃ mode now res, ending = GuardEnding.finalizeEnd mode now res ∧
        (FileWriterGuard.finalize
            (runWrites (FileWriterGuard.new w0 expiration expected_size content_md5) ops).1
            mode now res).2 = Except.ok s) := by
  set g0 := FileWriterGuard.new w0 expiration expected_size content_md5 with hg0
  have hs0 : g0.sender = true := rfl
  have hrw := runWrites_signal_cases ops g0
  unfold guardTraceSignals
  rcases hrw with ⟨h1, h2⟩ | ⟨_, h1, h2⟩
  · rw [hs0] at h2
    refine ⟨?_, ?_, ?_⟩
    · cases ending with
      | dropEnd => simp [runEnding, h1, dropGuard_signals, h2]
      | finalizeEnd mode now res =>
          simp [runEnding, h1, finalize_signal_length, h2]
    · intro hend
      subst hend
      simp [runEnding, h1, dropGuard_signals, h2]
    · intro s hmem
      dsimp only at hmem
      rw [← hg0, h1] at hmem
      simp only [List.nil_append] at hmem
      cases ending with
      | dropEnd =>
          rw [runEnding, dropGuard_signals, h2] at hmem
          simp at hmem
      | finalizeEnd mode now res =>
          exact ⟨mode, now, res, rfl, finalize_success_mem _ mode now res s hmem⟩
  · refine ⟨?_, ?_, ?_⟩
    · cases ending with
      | dropEnd => simp [runEnding, h1, dropGuard_signals, h2]
      | finalizeEnd mode now res =>
          simp [runEnding, h1, finalize_signal_length, h2]
    · intro hend
      subst hend
      simp [runEnding, h1, dropGuard_signals, h2]
    · intro s hmem
      dsimp only at hmem
      rw [← hg0, h1] at hmem
      cases ending with
      | dropEnd =>
          rw [runEnding, dropGuard_signals, h2] at hmem
          simp at hmem
      | finalizeEnd mode now res =>
          simp only [List.mem_append] at hmem
          rcases hmem with hmem | hmem
          · simp at hmem
          · exact ⟨mode, now, res, rfl, finalize_success_mem _ mode now res s hmem⟩

/-- Witness for C1 at a concrete lifetime: a fresh guard dropped without a
single write delivers exactly one Failed signal. -/
theorem guard_delivers_exactly_one_terminal_signal_witness :
    guardTraceSignals (FileWriter.new none) 3 none none [] GuardEnding.dropEnd
      = [WriteResult.failed] :=
  (guard_delivers_exactly_one_terminal_signal (FileWriter.new none) 3 none none []
    GuardEnding.dropEnd).2.1 rfl

/-- C7: a lifetime of the guard that ends in a drop without finalize
delivers exactly the Failed signal to the record; on Failed the lifecycle
task releases the shared file and sends RemoveWriter, performing no
ReadyForDistribution step; and the backbone loop, on RemoveWriter, removes
the record for that id from the registry and forwards nothing to the
dispatcher. -/
theorem dropped_guard_removes_record_and_never_distributes
    (w0 : FileWriter) (expiration : Nat) (expected_size : Option Nat)
    (content_md5 : Option (List Nat)) (ops : List GuardWriteOp)
    (id recv lease : Nat) (reg : List (Nat × FileRecordM)) :
    guardTraceSignals w0 expiration expected_size content_md5 ops GuardEnding.dropEnd
      = [WriteResult.failed] ∧
    lifetime_handler id (Except.ok WriteResult.failed) recv lease
      = [(recv, LifecycleStep.closeFile),
         (recv, LifecycleStep.sendCommand (BackboneCommand.removeWriter id))] ∧
    (lifetime_handler id (Except.ok WriteResult.failed) recv lease).filter
        step_is_ready_for_distribution = [] ∧
    lookup_record (handle_command reg (BackboneCommand.removeWriter id)).1 id = none ∧
    (handle_command reg (BackboneCommand.removeWriter id)).2 = [] := by
  refine ⟨?_, rfl, ?_, ?_, rfl⟩
  · set g0 := FileWriterGuard.new w0 expiration expected_size content_md5 with hg0
    have hs0 : g0.sender = true := rfl
    unfold guardTraceSignals
    rcases runWrites_signal_cases ops g0 with ⟨h1, h2⟩ | ⟨_, h1, h2⟩
    · rw [hs0] at h2
      simp [runEnding, h1, dropGuard_signals, h2]
    · simp [runEnding, h1, dropGuard_signals, h2]
  · rfl
  · exact lookup_remove_entry reg id

/-- A write call that overruns the declared size: the chunk has already
been appended to the backing file and fed to the hashers when the check
fires; the guard then signals failure when its sender is still present and
returns UnexpectedEof. -/
lemma write_overrun_eq (g : FileWriterGuard) (w : FileWriter) (chunk : List Nat)
    (n expected : Nat) (hin : g.inner = some w) (hes : g.expected_size = some expected)
    (hover : expected < g.file_size + n) :
    FileWriterGuard.write g chunk (Except.ok n)
      = ({ g with
            inner := some { disk := w.disk ++ chunk.take n
                            md5_input := w.md5_input ++ chunk
                            sha256_input := w.sha256_input ++ chunk
                            file_name := w.file_name
                            file_size := w.file_size + chunk.length }
            file_size := g.file_size + n
            sender := false },
         (if g.sender then [WriteResult.failed] else []),
         Except.error IoErrorKind.unexpectedEof) := by
  obtain ⟨inner, sender, exp, fs, es, md5⟩ := g
  dsimp only at hin hes hover
  subst hin
  subst hes
  cases sender <;>
    simp [FileWriterGuard.write, FileWriter.write, FileWriter.update_state,
      FileWriterGuard.fail_if_not_already_closed, hover]

/-- C2 counterexample: dropping the writer while the state is Pending(5)
moves the state to Completed(5), not to Failed as the claim demands. -/
theorem writer_drop_completes_pending_counterexample :
    writer_pinned_drop (FileState.pending 5) = FileState.completed 5 ∧
    FileState.completed 5 ≠ FileState.failed := by
  exact ⟨rfl, by simp⟩

/-- C2 amended: if the state is still Pending at drop time, the writer's
drop (which runs finalize_state) transitions it to Completed with the
current count, never to Failed; Completed and Failed are terminal for both
finalize_state and the byte-count update, and a Pending count only
grows. -/
theorem writer_drop_transitions (n k : Nat) :
    writer_pinned_drop (FileState.pending n) = FileState.completed n ∧
    writer_pinned_drop (FileState.completed n) = FileState.completed n ∧
    writer_pinned_drop FileState.failed = FileState.failed ∧
    (finalize_state (FileState.completed n)).1 = FileState.completed n ∧
    (finalize_state FileState.failed).1 = FileState.failed ∧
    (update_state_file (FileState.pending n) k).1 = FileState.pending (n + k) ∧
    (update_state_file (FileState.completed n) k).1 = FileState.completed n ∧
    (update_state_file FileState.failed k).1 = FileState.failed := by
  refine ⟨rfl, rfl, rfl, rfl, rfl, rfl, ?_, rfl⟩
  by_cases hk : k ≠ 0 <;> simp [update_state_file, hk]

/-- C6 counterexample: a reader whose offset equals the Pending count (an
empty disk, state Pending(0), offset 0) gets the completed underlying read
of zero bytes forwarded as end-of-stream instead of registering a waker
and suspending; and in the Failed state a ready underlying read is
forwarded unchanged instead of producing a ReadFailed error. -/
theorem poll_read_ignores_state_counterexample :
    (reader_poll_read { state := FileState.pending 0, wakers := [] } 0
        (Poll.ready (Except.ok (file_read_at [] 0 8))))
      = ({ state := FileState.pending 0, wakers := [] }, Poll.ready (Except.ok [])) ∧
    (Poll.ready (Except.ok ([] : List Nat)) : Poll ReadOutcome) ≠ Poll.pending ∧
    (reader_poll_read { state := FileState.failed, wakers := [] } 1
        (Poll.ready (Except.ok (file_read_at [7] 0 8)))).2
      = Poll.ready (Except.ok [7]) := by
  refine ⟨rfl, ?_, rfl⟩
  intro h
  exact Poll.noConfusion h

/-- C6 amended: poll_read forwards the underlying file poll without
consulting the shared state: whatever the state, a completed underlying
read is returned as is and the reader's waker is removed — in particular a
completed read at the end of the bytes on disk is returned as
end-of-stream — and the wake token is registered exactly when the
underlying poll is pending. -/
theorem poll_read_forwards_underlying (st : FileState) (wk : List Nat) (rid cap : Nat)
    (disk : List Nat) (r : ReadOutcome) :
    reader_poll_read { state := st, wakers := wk } rid (Poll.ready r)
      = ({ state := st, wakers := wk.erase rid }, Poll.ready r) ∧
    file_read_at disk disk.length cap = [] ∧
    reader_poll_read { state := st, wakers := wk } rid Poll.pending
      = ({ state := st, wakers := register_reader_waker wk rid }, Poll.pending) := by
  refine ⟨rfl, ?_, rfl⟩
  simp [file_read_at]

/-- C4 counterexample: with declared length 1, writing the chunk 3, 3 (2
bytes, fully reported by the OS) returns UnexpectedEof and signals Failed,
but the excess chunk has been appended to the backing file. -/
theorem overrun_write_counterexample :
    (FileWriterGuard.write (FileWriterGuard.new (FileWriter.new none) 4 (some 1) none)
        [3, 3] (Except.ok 2)).2.2 = Except.error IoErrorKind.unexpectedEof ∧
    (FileWriterGuard.write (FileWriterGuard.new (FileWriter.new none) 4 (some 1) none)
        [3, 3] (Except.ok 2)).2.1 = [WriteResult.failed] ∧
    ((FileWriterGuard.write (FileWriterGuard.new (FileWriter.new none) 4 (some 1) none)
        [3, 3] (Except.ok 2)).1.inner.map FileWriter.disk) = some [3, 3] ∧
    some [3, 3] ≠ some ([] : List Nat) := by
  refine ⟨rfl, rfl, rfl, by simp⟩

/-- C4 amended: a write call whose reported count makes the byte counter
exceed the declared length signals Failed (when the one-shot sender is
still present) and returns UnexpectedEof, but only after the chunk has
been appended to the backing file and hashed; the guard blocks later
success rather than keeping the excess bytes off disk. -/
theorem overrun_write_appends_then_fails (g : FileWriterGuard) (w : FileWriter)
    (chunk : List Nat) (n expected : Nat) (hin : g.inner = some w)
    (hes : g.expected_size = some expected) (hover : expected < g.file_size + n) :
    FileWriterGuard.write g chunk (Except.ok n)
      = ({ g with
            inner := some { disk := w.disk ++ chunk.take n
                            md5_input := w.md5_input ++ chunk
                            sha256_input := w.sha256_input ++ chunk
                            file_name := w.file_name
                            file_size := w.file_size + chunk.length }
            file_size := g.file_size + n
            sender := false },
         (if g.sender then [WriteResult.failed] else []),
         Except.error IoErrorKind.unexpectedEof) :=
  write_overrun_eq g w chunk n expected hin hes hover

/-- Witness for the amended C4 at a concrete input: declared length 1,
chunk 3, 3 fully written. -/
theorem overrun_write_appends_then_fails_witness :
    FileWriterGuard.write (FileWriterGuard.new (FileWriter.new none) 4 (some 1) none)
        [3, 3] (Except.ok 2)
      = ({ inner := some { disk := [3, 3], md5_input := [3, 3], sha256_input := [3, 3],
                           file_name := none, file_size := 2 },
           sender := false, expiration := 4, file_size := 2, expected_size := some 1,
           expected_content_md5 := none },
         [WriteResult.failed], Except.error IoErrorKind.unexpectedEof) := by
  have h := overrun_write_appends_then_fails
    (FileWriterGuard.new (FileWriter.new none) 4 (some 1) none)
    (FileWriter.new none) [3, 3] 2 1 rfl rfl (by decide)
  simpa using h

/-- C10: after a write call fails the overrun check, the inner writer is
still present and only the sender is consumed; a subsequent write call on
the same guard still appends its chunk to the backing file and updates the
digests, then returns UnexpectedEof again without sending any further
signal. -/
theorem guard_stays_open_after_overrun (g : FileWriterGuard) (w : FileWriter)
    (k1 k2 : List Nat) (n1 n2 expected : Nat) (hin : g.inner = some w)
    (hes : g.expected_size = some expected) (hover : expected < g.file_size + n1) :
    (FileWriterGuard.write g k1 (Except.ok n1)).1.sender = false ∧
    ∃ w1, (FileWriterGuard.write g k1 (Except.ok n1)).1.inner = some w1 ∧
      FileWriterGuard.write (FileWriterGuard.write g k1 (Except.ok n1)).1 k2 (Except.ok n2)
        = ({ (FileWriterGuard.write g k1 (Except.ok n1)).1 with
              inner := some { disk := w1.disk ++ k2.take n2
                              md5_input := w1.md5_input ++ k2
                              sha256_input := w1.sha256_input ++ k2
                              file_name := w1.file_name
                              file_size := w1.file_size + k2.length }
              file_size := (FileWriterGuard.write g k1 (Except.ok n1)).1.file_size + n2
              sender := false },
           [], Except.error IoErrorKind.unexpectedEof) := by
  have h1 := write_overrun_eq g w k1 n1 expected hin hes hover
  rw [h1]
  refine ⟨rfl, ⟨_, rfl, ?_⟩⟩
  have h2 := write_overrun_eq
    ({ g with
        inner := some { disk := w.disk ++ k1.take n1
                        md5_input := w.md5_input ++ k1
                        sha256_input := w.sha256_input ++ k1
                        file_name := w.file_name
                        file_size := w.file_size + k1.length }
        file_size := g.file_size + n1
        sender := false })
    _ k2 n2 expected rfl hes (by dsimp only; omega)
  rw [h2]
  simp

/-- Witness for C10 at a concrete input: declared length 1, a first chunk
of two bytes, then a second chunk of one byte that is still appended and
hashed. -/
theorem guard_stays_open_after_overrun_witness :
    ((FileWriterGuard.write (FileWriterGuard.new (FileWriter.new none) 4 (some 1) none)
        [3, 3] (Except.ok 2)).1.sender = false) ∧
    ∃ w1, (FileWriterGuard.write (FileWriterGuard.new (FileWriter.new none) 4 (some 1) none)
        [3, 3] (Except.ok 2)).1.inner = some w1 ∧
      FileWriterGuard.write
          (FileWriterGuard.write (FileWriterGuard.new (FileWriter.new none) 4 (some 1) none)
            [3, 3] (Except.ok 2)).1 [5] (Except.ok 1)
        = ({ (FileWriterGuard.write (FileWriterGuard.new (FileWriter.new none) 4 (some 1) none)
              [3, 3] (Except.ok 2)).1 with
              inner := some { disk := w1.disk ++ [5], md5_input := w1.md5_input ++ [5],
                              sha256_input := w1.sha256_input ++ [5],
                              file_name := w1.file_name, file_size := w1.file_size + 1 }
              file_size := (FileWriterGuard.write
                (FileWriterGuard.new (FileWriter.new none) 4 (some 1) none)
                [3, 3] (Except.ok 2)).1.file_size + 1
              sender := false },
           [], Except.error IoErrorKind.unexpectedEof) := by
  have h := guard_stays_open_after_overrun
    (FileWriterGuard.new (FileWriter.new none) 4 (some 1) none)
    (FileWriter.new none) [3, 3] [5] 2 1 1 rfl rfl (by decide)
  simpa using h

/-- C3: finalize first runs the digesting writer's finalize (its failure
short-circuits every check), then fails with InvalidFileLength carrying
the observed count and the declared length when a declared length is set
and disagrees, then fails with IntegrityCheckFailed carrying the declared
and the computed MD5 when a declared MD5 is set and disagrees, and
otherwise sends Success with the summary over the one-shot channel and
returns it; each failure path also sends Failed over the channel. -/
theorem finalize_checks_length_then_md5_then_signals (g : FileWriterGuard)
    (w : FileWriter) (mode : CompletionMode) (now : Nat)
    (hin : g.inner = some w) (hs : g.sender = true) :
    (∀ e, FileWriterGuard.finalize g mode now (Except.error e)
        = ([WriteResult.failed], Except.error (FinalizationError.fileSyncFailed e))) ∧
    (∀ expected, g.expected_size = some expected → g.file_size ≠ expected →
      FileWriterGuard.finalize g mode now (Except.ok ())
        = ([WriteResult.failed],
           Except.error (FinalizationError.invalidFileLength g.file_size expected))) ∧
    (∀ m, (g.expected_size = none ∨ g.expected_size = some g.file_size) →
      g.expected_content_md5 = some m → m ≠ md5_digest w.md5_input →
      FileWriterGuard.finalize g mode now (Except.ok ())
        = ([WriteResult.failed],
           Except.error
             (FinalizationError.integrityCheckFailed m (md5_digest w.md5_input)))) ∧
    ((g.expected_size = none ∨ g.expected_size = some g.file_size) →
      (g.expected_content_md5 = none ∨
        g.expected_content_md5 = some (md5_digest w.md5_input)) →
      FileWriterGuard.finalize g mode now (Except.ok ())
        = ([WriteResult.success
              { expires := now + g.expiration
                hashes := { sha256 := sha256_digest w.sha256_input
                            md5 := md5_digest w.md5_input }
                file_name := w.file_name
                file_size_bytes := w.file_size }],
           Except.ok
             { expires := now + g.expiration
               hashes := { sha256 := sha256_digest w.sha256_input
                           md5 := md5_digest w.md5_input }
               file_name := w.file_name
               file_size_bytes := w.file_size })) := by
  obtain ⟨inner, sender, exp, fs, es, md5⟩ := g
  dsimp only at hin hs
  subst hin
  subst hs
  refine ⟨?_, ?_, ?_, ?_⟩
  · intro e
    simp [FileWriterGuard.finalize, FileWriter.finalize,
      FileWriterGuard.fail_if_not_already_closed]
  · intro expected hes hneq
    dsimp only at hes
    subst hes
    simp [FileWriterGuard.finalize, FileWriter.finalize, hneq,
      FileWriterGuard.fail_if_not_already_closed]
  · intro m hessome hmd5some hne
    dsimp only at hessome hmd5some
    subst hmd5some
    rcases hessome with h | h <;> subst h <;>
      simp [FileWriterGuard.finalize, FileWriter.finalize,
        FileWriterGuard.finalize_md5_check, FileWriterGuard.fail_if_not_already_closed,
        hne]
  · intro h1 h2
    dsimp only at h1 h2
    rcases h1 with h1 | h1 <;> subst h1 <;> rcases h2 with h2 | h2 <;> subst h2 <;>
      simp [FileWriterGuard.finalize, FileWriter.finalize,
        FileWriterGuard.finalize_md5_check, FileWriterGuard.try_signal_success]

/-- Witness for C3 at the concrete instance of the claim: declared length
10, observed count 9, no declared MD5 — the error is InvalidFileLength
with arguments 9 and 10, and Failed is sent. -/
theorem finalize_checks_length_witness :
    FileWriterGuard.finalize
      { inner := some { disk := [], md5_input := [], sha256_input := [],
                        file_name := none, file_size := 9 },
        sender := true, expiration := 4, file_size := 9, expected_size := some 10,
        expected_content_md5 := none }
      CompletionMode.noSync 5 (Except.ok ())
      = ([WriteResult.failed],
         Except.error (FinalizationError.invalidFileLength 9 10)) := by
  have h := (finalize_checks_length_then_md5_then_signals
    { inner := some { disk := [], md5_input := [], sha256_input := [],
                      file_name := none, file_size := 9 },
      sender := true, expiration := 4, file_size := 9, expected_size := some 10,
      expected_content_md5 := none }
    { disk := [], md5_input := [], sha256_input := [], file_name := none, file_size := 9 }
    CompletionMode.noSync 5 rfl rfl).2.1 10 rfl (by decide)
  exact h

/-- C5 counterexample: a record created at instant 0 with lease 10 whose
write finishes at instant 7 carries expiration instant 17, which is the
finalize instant plus the lease, not the creation instant plus the lease;
and the lifecycle task removes the record at 17, not at 10. -/
theorem summary_expires_counterexample :
    FileWriter.finalize (FileWriter.new none) CompletionMode.noSync 7 10 (Except.ok ())
      = Except.ok { expires := 17, hashes := { sha256 := [], md5 := [] },
                    file_name := none, file_size_bytes := 0 } ∧
    ({ id := 1, content_type := none, created := 0, expiration_duration := 10 }
        : FileRecordM).created
      + ({ id := 1, content_type := none, created := 0, expiration_duration := 10 }
          : FileRecordM).expiration_duration ≠ 17 ∧
    lifetime_handler 1
        (Except.ok (WriteResult.success
          { expires := 17, hashes := { sha256 := [], md5 := [] },
            file_name := none, file_size_bytes := 0 })) 7 10
      = [(7, LifecycleStep.publishSummary
            { expires := 17, hashes := { sha256 := [], md5 := [] },
              file_name := none, file_size_bytes := 0 }),
         (7, LifecycleStep.sendCommand (BackboneCommand.readyForDistribution 1
            { expires := 17, hashes := { sha256 := [], md5 := [] },
              file_name := none, file_size_bytes := 0 })),
         (17, LifecycleStep.sendCommand (BackboneCommand.removeWriter 1))] := by
  exact ⟨rfl, by decide, rfl⟩

/-- C5 amended: the expiration instant carried by the write summary equals
the instant at which finalize runs plus the configured lease duration, and
the lifecycle task starts the lease countdown when it receives the Success
summary, removing the record at the receipt instant plus the lease;
neither is anchored to the record's creation instant, and nothing restarts
the countdown on access. -/
theorem summary_expires_at_finalize_plus_lease (w : FileWriter) (mode : CompletionMode)
    (now lease recv id : Nat) (s : WriteSummary) :
    (∃ s2, FileWriter.finalize w mode now lease (Except.ok ()) = Except.ok s2 ∧
        s2.expires = now + lease) ∧
    lifetime_handler id (Except.ok (WriteResult.success s)) recv lease
      = [(recv, LifecycleStep.publishSummary s),
         (recv, LifecycleStep.sendCommand (BackboneCommand.readyForDistribution id s)),
         (recv + lease, LifecycleStep.sendCommand (BackboneCommand.removeWriter id))] :=
  ⟨⟨_, rfl, rfl⟩, rfl⟩

/-- C8: admission of an id already present in the registry fails with
InternalErrorMayRetry carrying the id, returns no guard (the fresh writer
and file are dropped), and leaves the registry unchanged: the result
registry is the input one and the existing record is still mapped. -/
theorem admission_collision_leaves_registry_unchanged
    (reg : List (Nat × FileRecordM)) (id now lease : Nat) (ct : Option String)
    (es : Option Nat) (md5 : Option (List Nat)) (fname : Option String)
    (r : FileRecordM) (h : lookup_record reg id = some r) :
    new_file reg id now lease ct es md5 fname (Except.ok ()) (Except.ok ())
      = (reg, Except.error (NewFileError.internalErrorMayRetry id)) ∧
    lookup_record
        (new_file reg id now lease ct es md5 fname (Except.ok ()) (Except.ok ())).1 id
      = some r := by
  unfold new_file
  rw [h]
  exact ⟨rfl, h⟩

/-- Witness for C8 at a concrete registry holding id 1. -/
theorem admission_collision_witness :
    new_file [(1, { id := 1, content_type := none, created := 0,
                    expiration_duration := 9 })] 1 5 9 none none none none
        (Except.ok ()) (Except.ok ())
      = ([(1, { id := 1, content_type := none, created := 0,
                expiration_duration := 9 })],
         Except.error (NewFileError.internalErrorMayRetry 1)) :=
  (admission_collision_leaves_registry_unchanged
    [(1, { id := 1, content_type := none, created := 0, expiration_duration := 9 })]
    1 5 9 none none none none
    { id := 1, content_type := none, created := 0, expiration_duration := 9 } rfl).1

/-- C9: the byte counter and both digest streams advance by the full chunk
passed to the digesting write, before and independently of the count the
underlying write reports; hence in the upload handler's retry loop a
partially reported write makes the unwritten remainder be counted and
hashed a second time: for the two-byte body 7, 9 with two writes each
reporting one byte, the backing file holds 7, 9 but the counter reaches 3
and the hashers consume 7, 9, 9. -/
theorem digests_count_full_chunks_before_write :
    (∀ (w : FileWriter) (chunk : List Nat) (res : Except IoErrorKind Nat),
        (FileWriter.write w chunk res).1.file_size = w.file_size + chunk.length ∧
        (FileWriter.write w chunk res).1.md5_input = w.md5_input ++ chunk ∧
        (FileWriter.write w chunk res).1.sha256_input = w.sha256_input ++ chunk) ∧
    yeet_write_chunk_loop (FileWriter.new none) [7, 9] [1, 1]
      = ({ disk := [7, 9], md5_input := [7, 9, 9], sha256_input := [7, 9, 9],
           file_name := none, file_size := 3 }, 2) := by
  constructor
  · intro w chunk res
    cases res <;> simp [FileWriter.write, FileWriter.update_state]
  · rfl
